import Mathlib

/-!
Shallow embedding of the timing and scheduling core of `smile/experiment.py`:
the display synchronizer (blocking flip and flip-interval calibration), the
event loop time-window computation and loop guard, window key handling, the
run finalization sequence, and the `Set`, `Get`, `Log` leaf nodes.

Times are modelled as exact rationals.  Python exceptions are modelled with
`Except` or by returning the unchanged state alongside the error.  The
external collaborators (pyglet surface, `ref.val` resolution, `log.dump`)
enter as parameters: a clock sequence `ℕ → ℚ` supplies the values of `now()`,
a function `PyVal → PyVal` stands for the `val` resolver, and file and GL
side effects are reified as explicit action values.
-/

namespace Smile

/-- A timestamp with an explicit error bound: the dict built by
`event_time(time, time_error)` in experiment.py. -/
structure EventTime where
  time : ℚ
  error : ℚ
  deriving Repr, DecidableEq

/-- `event_time(time, time_error=0.0)` from experiment.py line 30. -/
def event_time (time : ℚ) (time_error : ℚ := 0) : EventTime :=
  { time := time, error := time_error }

/-- The window and flip bookkeeping owned by `ExpWindow` and `Experiment`:
`need_flip`, `need_draw` (set by `on_draw`) and the experiment attribute
`last_flip` (the FlipRecord, updated only by `blocking_flip`). -/
structure ExpState where
  need_flip : Bool
  need_draw : Bool
  last_flip : EventTime
  deriving Repr, DecidableEq

/-- The state right after `Experiment.__init__`: nothing drawn, nothing
flipped, `last_flip = event_time(0.0)` (line 175). -/
def initExpState : ExpState :=
  { need_flip := false, need_draw := false, last_flip := event_time 0 }

/-- `ExpWindow.on_draw(force)` (lines 57-61): when forced or a draw is
pending, clear, draw the batch and mark that a flip is needed. -/
def on_draw (w : ExpState) (force : Bool) : ExpState :=
  if force || w.need_draw then { w with need_flip := true } else w

/-- `Experiment.blocking_flip` (lines 359-387): only if something was drawn
(`need_flip`), perform the flip, block on `glFinish`, record `now()` as the
new FlipRecord with zero error, and clear `need_flip`; in every case return
`last_flip`.  The GL calls are pure waiting and do not change the modelled
state; `nowT` is the value of `now()` at the moment the swap completes. -/
def blocking_flip (s : ExpState) (nowT : ℚ) : ExpState × EventTime :=
  if s.need_flip then
    let s2 := { s with last_flip := event_time nowT 0, need_flip := false }
    (s2, s2.last_flip)
  else
    (s, s.last_flip)

/-- The accumulator of the calibration loop in `_calc_flip_interval`:
`diffs`, `last_time` (a float `0.0` before the first flip, afterwards the
dict returned by `blocking_flip`; in Python 2 the guard `last_time > 0.0`
is true for every dict, so an `Option` models it exactly) and the float
`count`. -/
structure CalibAcc where
  diffs : ℚ
  last_time : Option EventTime
  count : ℚ
  deriving Repr, DecidableEq

/-- One iteration of the `for i in range(nflips)` loop of
`_calc_flip_interval` (lines 328-349): set the clear color, force a draw,
perform the blocking flip, and accumulate the delta when a previous flip
exists and `i >= nignore`.  `nowSeq i` is the value of `now()` inside the
blocking flip of iteration `i`; the 5 ms sleep only spaces the flips. -/
def calibStep (nowSeq : ℕ → ℚ) (nignore : ℕ) (i : ℕ) (sw : ExpState × CalibAcc) :
    ExpState × CalibAcc :=
  let es := on_draw sw.1 true
  let fl := blocking_flip es (nowSeq i)
  let cur_time := fl.2
  let acc := sw.2
  let acc2 :=
    match acc.last_time with
    | some lt =>
        if nignore ≤ i then
          { diffs := acc.diffs + (cur_time.time - lt.time),
            last_time := some cur_time,
            count := acc.count + 1 }
        else
          { acc with last_time := some cur_time }
    | none => { acc with last_time := some cur_time }
  (fl.1, acc2)

/-- The whole calibration loop, iterated `n` times from the start state
(`diffs = 0.0`, `last_time = 0.0`, `count = 0.0`, lines 325-327). -/
def calibLoop (nowSeq : ℕ → ℚ) (nignore : ℕ) (es : ExpState) : ℕ → ExpState × CalibAcc
  | 0 => (es, { diffs := 0, last_time := none, count := 0 })
  | n + 1 => calibStep nowSeq nignore n (calibLoop nowSeq nignore es n)

/-- `Experiment._calc_flip_interval(nflips=55, nignore=5)` (lines 320-357).
After the sampling loop it returns `diffs/count`; in Python a float division
by `count == 0.0` raises `ZeroDivisionError`, modelled as the error case.
The closing reset of the background color does not change the result. -/
def calc_flip_interval (nowSeq : ℕ → ℚ) (es : ExpState)
    (nflips : ℕ := 55) (nignore : ℕ := 5) : Except String ℚ :=
  let acc := (calibLoop nowSeq nignore es nflips).2
  if acc.count = 0 then
    Except.error "ZeroDivisionError: float division by zero"
  else
    Except.ok (acc.diffs / acc.count)

/-- The per-iteration time bookkeeping of the event loop in
`Experiment.run`: `_last_time` and the current `event_time` window. -/
structure EvState where
  last_time : ℚ
  event_time : EventTime
  deriving Repr, DecidableEq

/-- The time computation of one loop iteration (lines 289-292 and 306):
sample `new_time`, set the window to the midpoint with half-width error,
and end by saving `last_time = new_time`. -/
def loopBodyTime (s : EvState) (new_time : ℚ) : EvState :=
  let time_err := (new_time - s.last_time) / 2
  { last_time := new_time, event_time := event_time (s.last_time + time_err) time_err }

/-- The event-loop time state after `n` iterations, driven by the clock
samples `clk`: `clk 0` is the `now()` taken before the loop (line 286) and
`clk (n+1)` the `now()` of iteration `n`.  Before the loop, `last_event`
is `event_time(0.0)` (line 178). -/
def evIter (clk : ℕ → ℚ) : ℕ → EvState
  | 0 => { last_time := clk 0, event_time := event_time 0 0 }
  | n + 1 => loopBodyTime (evIter clk n) (clk (n + 1))

/-- The two flags consulted by the loop condition of `Experiment.run`
(line 287). -/
structure LoopState where
  done : Bool
  has_exit : Bool
  deriving Repr, DecidableEq

/-- The guard of `while not self.done and not self.window.has_exit`. -/
def loopGuard (s : LoopState) : Bool :=
  !s.done && !s.has_exit

/-- The event loop with fuel `n`: run the body while the guard holds. -/
def runLoop (body : LoopState → LoopState) : ℕ → LoopState → LoopState
  | 0, s => s
  | n + 1, s => if loopGuard s then runLoop body n (body s) else s

/-- `pyglet.window.key.ESCAPE`. -/
def ESCAPE : ℕ := 65307

/-- `pyglet.window.key.MOD_SHIFT`. -/
def MOD_SHIFT : ℕ := 1

/-- The parts of `ExpWindow` that `on_key_press` touches: the pyglet
`has_exit` flag and the registered key callbacks (identified by id). -/
structure WinState where
  has_exit : Bool
  key_callbacks : List ℕ
  deriving Repr, DecidableEq

/-- `ExpWindow.on_key_press` (lines 84-92): Shift+ESCAPE sets `has_exit`;
then every registered callback is called, in registration order, with the
symbol, the modifiers and the experiment event-time window.  The returned
list reifies those calls. -/
def on_key_press (w : WinState) (symbol modifiers : ℕ) (et : EventTime) :
    WinState × List (ℕ × ℕ × ℕ × EventTime) :=
  let w2 :=
    if symbol = ESCAPE ∧ modifiers &&& MOD_SHIFT ≠ 0 then
      { w with has_exit := true }
    else w
  (w2, w.key_callbacks.map fun c => (c, symbol, modifiers, et))

/-- The finalization actions of `Experiment.run` after the loop
(lines 308-317), in order. -/
inductive FinalAction where
  | flushStream : String → FinalAction
  | yamlToCsv : String → String → FinalAction
  | closeWindow : FinalAction
  deriving Repr, DecidableEq

/-- The tail of `Experiment.run` (lines 308-317): inside `if not
self.nocsv`, flush the state log stream, convert it to csv, flush the
experiment log stream, convert it to csv; then close the window. -/
def runFinalize (nocsv : Bool) : List FinalAction :=
  (if !nocsv then
    [FinalAction.flushStream "state_log_stream",
     FinalAction.yamlToCsv "state.yaml" "state.csv",
     FinalAction.flushStream "exp_log_stream",
     FinalAction.yamlToCsv "exp.yaml" "exp.csv"]
  else []) ++ [FinalAction.closeWindow]

/-- The screen index used by `Experiment.__init__` (lines 150-153): when
the constructor value differs from the command-line value, the command
line overrides. -/
def effective_screen_ind (ctor_screen cli_screen : ℕ) : ℕ :=
  if ctor_screen ≠ cli_screen then cli_screen else ctor_screen

/-- The fullscreen flag used by `Experiment.__init__` (line 155):
`self.fullscreen = fullscreen or self.fullscreen`, the right operand being
the command-line flag. -/
def effective_fullscreen (ctor_fullscreen cli_fullscreen : Bool) : Bool :=
  ctor_fullscreen || cli_fullscreen

/-- The window configuration produced at the top of `Experiment.run`
(lines 250-260): fullscreen windows get no resolution argument, windowed
ones are created at `self.resolution`; both receive `self.screen`. -/
structure WindowConfig where
  fullscreen : Bool
  screen : ℕ
  resolution : Option (ℕ × ℕ)
  deriving Repr, DecidableEq

/-- The branch on `self.fullscreen` creating the `ExpWindow` in `run`. -/
def createWindow (fullscreen : Bool) (resolution : ℕ × ℕ) (screen : ℕ) : WindowConfig :=
  if fullscreen then
    { fullscreen := true, screen := screen, resolution := none }
  else
    { fullscreen := false, screen := screen, resolution := some resolution }

/-- The dynamically typed values flowing through `Set`, `Get` and `Log`:
strings, integers and `Ref` handles (identified by id). -/
inductive PyVal where
  | str : String → PyVal
  | int : ℤ → PyVal
  | ref : ℕ → PyVal
  deriving Repr, DecidableEq

/-- The Controller variable store `self._vars`, a Python dict from names
to values. -/
def VarStore := String → Option PyVal

/-- Assignment `self.exp._vars[name] = value`. -/
def storeSet (vars : VarStore) (k : String) (v : PyVal) : VarStore :=
  fun k2 => if k2 = k then some v else vars k2

/-- The attributes of a `Set` node fixed at construction (lines 422-432). -/
structure SetState where
  var : PyVal
  val : PyVal
  eval_var : Bool
  deriving Repr, DecidableEq

/-- The write performed by a successful `Set._callback`: either a store
write under a name, or a delegation to `Ref.set` of a handle. -/
inductive SetEffect where
  | varsWrite : String → PyVal → SetEffect
  | refSet : ℕ → PyVal → SetEffect
  deriving Repr, DecidableEq

/-- `Set._callback` (lines 437-451): resolve the variable (through the
resolver `resolve`, standing for `ref.val`, when `eval_var`), resolve the
value, then dispatch on the resolved variable type: a string writes the
store, a `Ref` delegates, anything else raises
`ValueError` and leaves the store untouched (the returned store is the
given one in the error case, since the exception propagates before any
store assignment). -/
def Set_callback (resolve : PyVal → PyVal) (st : SetState) (vars : VarStore) :
    VarStore × Except String SetEffect :=
  let resolvedVar := if st.eval_var then resolve st.var else st.var
  let value := resolve st.val
  match resolvedVar with
  | PyVal.str s => (storeSet vars s value, Except.ok (SetEffect.varsWrite s value))
  | PyVal.ref r => (vars, Except.ok (SetEffect.refSet r value))
  | PyVal.int _ =>
      (vars, Except.error "ValueError: Unrecognized variable type. Must either be string or Ref")

/-- `Get(variable)` (lines 454-494): a lazy reference whose getter reads
the variable from the live Controller store at resolution time. -/
def Get (variable2 : String) (vars : VarStore) : Option PyVal :=
  vars variable2

/-- The attributes of a `Log` node fixed at construction (lines 566-574):
note `save_log=False` is passed to the `State` initializer, so a `Log`
never contributes to the automatic state log. -/
structure LogState where
  log_file : Option String
  log_items : List (String × PyVal)
  log_dict : Option (List (String × PyVal))
  save_log : Bool
  deriving Repr, DecidableEq

/-- `Log.__init__(log_dict=None, log_file=None, **log_items)`. -/
def Log_init (log_dict : Option (List (String × PyVal)))
    (log_file : Option String) (log_items : List (String × PyVal)) : LogState :=
  { log_file := log_file, log_items := log_items, log_dict := log_dict,
    save_log := false }

/-- A Python dict with string keys, as a lookup function. -/
def Dict := String → Option PyVal

/-- The empty dict. -/
def dictEmpty : Dict := fun _ => none

/-- `d[k] = v`. -/
def dictInsert (d : Dict) (k : String) (v : PyVal) : Dict :=
  fun k2 => if k2 = k then some v else d k2

/-- Insert a list of key-value pairs left to right into `d`: the semantics
of `dict(keyvals)` (from `dictEmpty`) and of `d.update(pairs)`.  Later
pairs override earlier ones and everything overrides `d`. -/
def dictOfPairs (l : List (String × PyVal)) (d : Dict) : Dict :=
  l.foldl (fun acc kv => dictInsert acc kv.1 kv.2) d

/-- `Log._callback` (lines 584-592): resolve every value of `log_items`
into a dict, update it with the resolved `log_dict` when that is truthy
(Python: `None` and the empty dict are falsy), and dump the single
resulting record.  The returned list holds the records appended to the
stream by `dump([log], ...)`. -/
def Log_callback (resolve : PyVal → PyVal) (st : LogState) : List Dict :=
  let keyvals := st.log_items.map fun kv => (kv.1, resolve kv.2)
  let log := dictOfPairs keyvals dictEmpty
  let log2 :=
    match st.log_dict with
    | some d => if d.isEmpty then log else dictOfPairs (d.map fun kv => (kv.1, resolve kv.2)) log
    | none => log
  [log2]

/-- The open file handles of a run; `openHandles` counts the streams
opened so far by `open(...)`, so a fresh call yields a fresh handle. -/
structure StreamsState where
  openHandles : ℕ
  deriving Repr, DecidableEq

/-- A stream a `Log` node can write to: the single experiment log stream
opened in `Experiment.__init__` and kept for the run, or a numbered handle
produced by a call to `open`. -/
inductive StreamRef where
  | expLogStream : StreamRef
  | fileHandle : String → ℕ → StreamRef
  deriving Repr, DecidableEq

/-- `Log._get_stream` (lines 576-582): with no `log_file` the default
experiment log stream; otherwise `open(os.path.join(subj_dir, log_file),
"a")`, which creates a new append-mode handle on every call. -/
def Log_get_stream (subj_dir : String) (st : LogState) (s : StreamsState) :
    StreamsState × StreamRef :=
  match st.log_file with
  | none => (s, StreamRef.expLogStream)
  | some f =>
      ({ openHandles := s.openHandles + 1 },
       StreamRef.fileHandle (subj_dir ++ "/" ++ f) s.openHandles)

/-- The last binding of key `k` in an association list: the value a Python
dict built or updated from these pairs holds at `k` (later pairs override
earlier ones, so the bindings further down the list take precedence). -/
def lookupLast : List (String × PyVal) → String → Option PyVal
  | [], _ => none
  | kv :: t, k => (lookupLast t k).or (if kv.1 = k then some kv.2 else none)

/-- One calibration iteration always forces a draw, so the blocking flip
always records `nowSeq i`; the accumulator evolves by the guard
`last_time > 0.0 and i >= nignore` of the source. -/
theorem calibStep_acc (nowSeq : ℕ → ℚ) (nignore i : ℕ) (sw : ExpState × CalibAcc) :
    (calibStep nowSeq nignore i sw).2 =
      match sw.2.last_time with
      | some lt =>
          if nignore ≤ i then
            { diffs := sw.2.diffs + (nowSeq i - lt.time),
              last_time := some (event_time (nowSeq i) 0),
              count := sw.2.count + 1 }
          else { sw.2 with last_time := some (event_time (nowSeq i) 0) }
      | none => { sw.2 with last_time := some (event_time (nowSeq i) 0) } := by
  obtain ⟨es, acc⟩ := sw
  obtain ⟨diffs, lastt, count⟩ := acc
  cases lastt with
  | none => simp [calibStep, on_draw, blocking_flip, event_time]
  | some lt =>
      by_cases hni : nignore ≤ i <;>
        simp [calibStep, on_draw, blocking_flip, event_time, hni]

/-- After `n ≥ 1` calibration iterations the accumulator holds the sum of
the deltas whose index passed the guard (both a previous flip and the
warm-up count), the last flip time, and the number of those deltas. -/
theorem calibLoop_acc (nowSeq : ℕ → ℚ) (nignore : ℕ) (es : ExpState) :
    ∀ n, 1 ≤ n →
      (calibLoop nowSeq nignore es n).2 =
        { diffs := ∑ i ∈ Finset.Ico (max nignore 1) n, (nowSeq i - nowSeq (i - 1)),
          last_time := some (event_time (nowSeq (n - 1)) 0),
          count := ((Finset.Ico (max nignore 1) n).card : ℚ) } := by
  intro n
  induction n with
  | zero => intro h; exact absurd h (by omega)
  | succ m ih =>
      intro _
      have step : (calibLoop nowSeq nignore es (m + 1)).2 =
          (calibStep nowSeq nignore m (calibLoop nowSeq nignore es m)).2 := rfl
      rw [step, calibStep_acc]
      by_cases hm : 1 ≤ m
      · rw [ih hm]
        by_cases hni : nignore ≤ m
        · have hmax : max nignore 1 ≤ m := by omega
          have hsum := Finset.sum_Ico_succ_top hmax fun i => nowSeq i - nowSeq (i - 1)
          have hcard : (Finset.Ico (max nignore 1) (m + 1)).card =
              (Finset.Ico (max nignore 1) m).card + 1 := by
            simp only [Nat.card_Ico]
            omega
          simp [hni, hsum, hcard, event_time]
        · have hempty1 : Finset.Ico (max nignore 1) m = ∅ :=
            Finset.Ico_eq_empty (by omega)
          have hempty2 : Finset.Ico (max nignore 1) (m + 1) = ∅ :=
            Finset.Ico_eq_empty (by omega)
          simp [hni, hempty1, hempty2]
      · have hm0 : m = 0 := by omega
        subst hm0
        have hempty : Finset.Ico (max nignore 1) 1 = ∅ :=
          Finset.Ico_eq_empty (by omega)
        simp [calibLoop, hempty]

/-- Claim C2: for every flip source, calibration with `nflips = 55` and
`nignore = 5` returns the arithmetic mean of the post-warm-up inter-flip
deltas (the deltas of iterations 5 through 54; the deltas recorded during
the first five iterations never enter the sum), and for a fixed-rate
source with period `p` the result is exactly `p`. -/
theorem C2_calibrate_mean (nowSeq : ℕ → ℚ) (es : ExpState) :
    calc_flip_interval nowSeq es 55 5 =
        Except.ok ((∑ i ∈ Finset.Ico 5 55, (nowSeq i - nowSeq (i - 1))) /
          ((Finset.Ico 5 55).card : ℚ)) ∧
      ∀ t0 p : ℚ,
        calc_flip_interval (fun i => t0 + (i : ℚ) * p) es 55 5 = Except.ok p := by
  have key : ∀ ns : ℕ → ℚ,
      calc_flip_interval ns es 55 5 =
        Except.ok ((∑ i ∈ Finset.Ico 5 55, (ns i - ns (i - 1))) / 50) := by
    intro ns
    have h := calibLoop_acc ns 5 es 55 (by norm_num)
    have hmax : max 5 1 = 5 := rfl
    rw [hmax] at h
    simp [calc_flip_interval, h, Nat.card_Ico]
  constructor
  · rw [key nowSeq]
    norm_num [Nat.card_Ico]
  · intro t0 p
    rw [key fun i => t0 + (i : ℚ) * p]
    have hterm : ∀ i ∈ Finset.Ico (5 : ℕ) 55,
        (fun i : ℕ => t0 + (i : ℚ) * p) i - (fun i : ℕ => t0 + (i : ℚ) * p) (i - 1) = p := by
      intro i hi
      obtain ⟨h5, _⟩ := Finset.mem_Ico.mp hi
      have h1 : (1 : ℕ) ≤ i := by omega
      simp only
      rw [Nat.cast_sub h1]
      push_cast
      ring
    rw [Finset.sum_congr rfl hterm, Finset.sum_const, Nat.card_Ico]
    norm_num

/-- Claim C1: the claim asks that a calibration run collecting zero valid
deltas fail with a calibration error instead of dividing by zero; the code
has no such guard, and this theorem evaluates the embedded
`_calc_flip_interval` at such a run (`nflips = 5`, `nignore = 5`, so the
guard `i >= nignore` never holds): the unguarded `diffs/count` is reached
with `count == 0.0` and the run ends in the `ZeroDivisionError` of the
float division itself. -/
theorem C1_zero_deltas_raises_div_by_zero :
    calc_flip_interval (fun i => (i : ℚ)) initExpState 5 5 =
      Except.error "ZeroDivisionError: float division by zero" := by
  rfl

/-- In every iteration the event-loop state stores the latest clock sample
as `last_time` (line 306 of the source saves `new_time`). -/
theorem evIter_last_time (clk : ℕ → ℚ) (n : ℕ) : (evIter clk n).last_time = clk n := by
  cases n <;> rfl

/-- Claim C3: in every loop iteration with consecutive clock samples
`clk n ≤ clk (n+1)`, the computed window has `time = (last+new)/2`, which
lies in `[last, new]`, and `error = (new-last)/2`; and because `last_time`
is set to `new_time` at the end of the iteration, the next window starts
exactly where this one ends, so consecutive windows are contiguous and
non-overlapping. -/
theorem C3_event_time_window (clk : ℕ → ℚ) (n : ℕ) (h : clk n ≤ clk (n + 1)) :
    (evIter clk (n + 1)).event_time.time = (clk n + clk (n + 1)) / 2 ∧
      clk n ≤ (evIter clk (n + 1)).event_time.time ∧
      (evIter clk (n + 1)).event_time.time ≤ clk (n + 1) ∧
      (evIter clk (n + 1)).event_time.error = (clk (n + 1) - clk n) / 2 ∧
      (evIter clk (n + 1)).event_time.time + (evIter clk (n + 1)).event_time.error =
        clk (n + 1) ∧
      (evIter clk (n + 2)).event_time.time - (evIter clk (n + 2)).event_time.error =
        clk (n + 1) := by
  have e1 : (evIter clk (n + 1)).event_time =
      event_time (clk n + (clk (n + 1) - clk n) / 2) ((clk (n + 1) - clk n) / 2) := by
    show (loopBodyTime (evIter clk n) (clk (n + 1))).event_time = _
    simp [loopBodyTime, evIter_last_time]
  have e2 : (evIter clk (n + 2)).event_time =
      event_time (clk (n + 1) + (clk (n + 2) - clk (n + 1)) / 2)
        ((clk (n + 2) - clk (n + 1)) / 2) := by
    show (loopBodyTime (evIter clk (n + 1)) (clk (n + 2))).event_time = _
    simp [loopBodyTime, evIter_last_time]
  rw [e1, e2]
  simp only [event_time]
  refine ⟨by ring, by linarith, by linarith, by trivial, by ring, by ring⟩

/-- Witness for C3 at the constant clock `clk = 0` and iteration `n = 0`. -/
theorem C3_event_time_window_witness :
    (evIter (fun _ => (0 : ℚ)) 1).event_time.time = ((0 : ℚ) + 0) / 2 ∧
      (0 : ℚ) ≤ (evIter (fun _ => (0 : ℚ)) 1).event_time.time ∧
      (evIter (fun _ => (0 : ℚ)) 1).event_time.time ≤ 0 ∧
      (evIter (fun _ => (0 : ℚ)) 1).event_time.error = ((0 : ℚ) - 0) / 2 ∧
      (evIter (fun _ => (0 : ℚ)) 1).event_time.time +
          (evIter (fun _ => (0 : ℚ)) 1).event_time.error = 0 ∧
      (evIter (fun _ => (0 : ℚ)) 2).event_time.time -
          (evIter (fun _ => (0 : ℚ)) 2).event_time.error = 0 :=
  C3_event_time_window (fun _ => (0 : ℚ)) 0 (le_refl 0)

/-- Claim C4: when nothing was drawn since the previous flip
(`need_flip = false`), `blocking_flip` is a no-op returning the last
recorded FlipRecord with the state unchanged; in particular two
consecutive calls with no intervening draw return the identical
FlipRecord both times. -/
theorem C4_blocking_flip_noop (s : ExpState) (t1 t2 : ℚ) (h : s.need_flip = false) :
    blocking_flip s t1 = (s, s.last_flip) ∧
      (blocking_flip (blocking_flip s t1).1 t2).2 = (blocking_flip s t1).2 := by
  constructor
  · simp [blocking_flip, h]
  · simp [blocking_flip, h]

/-- Witness for C4 at the freshly initialized state, which has not drawn. -/
theorem C4_blocking_flip_noop_witness :
    blocking_flip initExpState 1 = (initExpState, initExpState.last_flip) ∧
      (blocking_flip (blocking_flip initExpState 1).1 2).2 =
        (blocking_flip initExpState 1).2 :=
  C4_blocking_flip_noop initExpState 1 2 rfl

/-- Claim C5: `Set._callback` writes the resolved value into the variable
store when the resolved variable is a string, delegates to the handle
`set` when it is a `Ref`, and for any other resolved type raises
`ValueError` immediately, the store left exactly as given (nothing is
written before the error). -/
theorem C5_set_callback_dispatch (resolve : PyVal → PyVal) (st : SetState) (vars : VarStore) :
    (∀ s2, (if st.eval_var then resolve st.var else st.var) = PyVal.str s2 →
        Set_callback resolve st vars =
          (storeSet vars s2 (resolve st.val),
            Except.ok (SetEffect.varsWrite s2 (resolve st.val)))) ∧
      (∀ r, (if st.eval_var then resolve st.var else st.var) = PyVal.ref r →
        Set_callback resolve st vars =
          (vars, Except.ok (SetEffect.refSet r (resolve st.val)))) ∧
      (∀ z : ℤ, (if st.eval_var then resolve st.var else st.var) = PyVal.int z →
        Set_callback resolve st vars =
          (vars,
            Except.error
              "ValueError: Unrecognized variable type. Must either be string or Ref")) := by
  refine ⟨?_, ?_, ?_⟩ <;> intro x h <;> simp [Set_callback, h]

/-- Witness for C5: setting through an integer variable raises the
configuration error and the empty store stays empty. -/
theorem C5_set_callback_dispatch_witness :
    Set_callback id { var := PyVal.int 3, val := PyVal.int 5, eval_var := true }
        (fun _ => none) =
      ((fun _ => none),
        Except.error
          "ValueError: Unrecognized variable type. Must either be string or Ref") :=
  (C5_set_callback_dispatch id
      { var := PyVal.int 3, val := PyVal.int 5, eval_var := true } (fun _ => none)).2.2 3 rfl

/-- Claim C6, counterexample: with CSV export disabled (`nocsv = true`)
the finalization of `run` performs no flush at all, refuting that both
log streams are flushed whether or not CSV export is enabled. -/
theorem C6_no_flush_when_nocsv :
    runFinalize true = [FinalAction.closeWindow] ∧
      FinalAction.flushStream "state_log_stream" ∉ runFinalize true ∧
      FinalAction.flushStream "exp_log_stream" ∉ runFinalize true := by
  decide

/-- Claim C6, amended: on DONE the Controller closes the surface in every
case (it is the final action); only when CSV export is enabled does it
flush each of the two log streams and convert each YAML log to CSV, each
flush immediately preceding its conversion; when CSV export is disabled
no stream is flushed by `run`. -/
theorem C6_finalize_amended (nocsv : Bool) :
    (runFinalize nocsv).getLast? = some FinalAction.closeWindow ∧
      (nocsv = false →
        runFinalize nocsv =
          [FinalAction.flushStream "state_log_stream",
           FinalAction.yamlToCsv "state.yaml" "state.csv",
           FinalAction.flushStream "exp_log_stream",
           FinalAction.yamlToCsv "exp.yaml" "exp.csv",
           FinalAction.closeWindow]) ∧
      (nocsv = true → ∀ s : String, FinalAction.flushStream s ∉ runFinalize nocsv) := by
  cases nocsv <;> simp [runFinalize]

/-- Claim C7: the screen index used by `run` is always the command-line
one, and whenever the command line gives `--fullscreen` the window is
created fullscreen, regardless of the constructor defaults; the created
window configuration carries exactly these effective values. -/
theorem C7_cli_precedence (ctor_screen cli_screen : ℕ) (ctor_fullscreen : Bool)
    (res : ℕ × ℕ) :
    effective_screen_ind ctor_screen cli_screen = cli_screen ∧
      effective_fullscreen ctor_fullscreen true = true ∧
      (createWindow (effective_fullscreen ctor_fullscreen true) res
          (effective_screen_ind ctor_screen cli_screen)).fullscreen = true ∧
      (createWindow (effective_fullscreen ctor_fullscreen true) res
          (effective_screen_ind ctor_screen cli_screen)).screen = cli_screen := by
  have h1 : effective_screen_ind ctor_screen cli_screen = cli_screen := by
    unfold effective_screen_ind
    split <;> omega
  have h2 : effective_fullscreen ctor_fullscreen true = true := by
    simp [effective_fullscreen]
  exact ⟨h1, h2, by simp [h1, h2, createWindow], by simp [h1, h2, createWindow]⟩

/-- Claim C9, counterexample: a `Log` node with a named `log_file`
activated twice in a row receives two distinct newly opened streams (the
open-handle counter grows by one each time), refuting that the named file
stream is kept open for the run and reused across activations. -/
theorem C9_new_stream_each_activation :
    (Log_get_stream "data/test000" (Log_init none (some "custom.yaml") [])
          { openHandles := 0 }).2 ≠
        (Log_get_stream "data/test000" (Log_init none (some "custom.yaml") [])
            (Log_get_stream "data/test000" (Log_init none (some "custom.yaml") [])
              { openHandles := 0 }).1).2 := by
  decide

/-- Claim C9, amended: with no `log_file` the node writes to the single
default experiment log stream; with a named `log_file` each activation
opens a fresh append-mode stream on the file under the subject directory
(a new handle per activation, the file path being the join of the subject
directory and the name), rather than keeping one stream open for the run. -/
theorem C9_get_stream_amended (subj_dir : String) (st : LogState) (s : StreamsState) :
    (st.log_file = none → Log_get_stream subj_dir st s = (s, StreamRef.expLogStream)) ∧
      ∀ f, st.log_file = some f →
        Log_get_stream subj_dir st s =
          ({ openHandles := s.openHandles + 1 },
            StreamRef.fileHandle (subj_dir ++ "/" ++ f) s.openHandles) := by
  constructor
  · intro h
    simp [Log_get_stream, h]
  · intro f h
    simp [Log_get_stream, h]

/-- Claim C10: the event loop iterates exactly while `done` and `has_exit`
are both false; a key press sets `has_exit` exactly when the symbol is
ESCAPE with the Shift modifier held, every other key press leaving
`has_exit` unchanged; and every key press, exit-setting or not, is
dispatched to all registered key callbacks in registration order. -/
theorem C10_loop_guard_and_escape (w : WinState) (symbol modifiers : ℕ) (et : EventTime)
    (body : LoopState → LoopState) (n : ℕ) (ls : LoopState) :
    (on_key_press w symbol modifiers et).1.has_exit =
        (w.has_exit ||
          (decide (symbol = ESCAPE) && decide (modifiers &&& MOD_SHIFT ≠ 0))) ∧
      (on_key_press w symbol modifiers et).2 =
        w.key_callbacks.map (fun c => (c, symbol, modifiers, et)) ∧
      runLoop body (n + 1) ls =
        (if !ls.done && !ls.has_exit then runLoop body n (body ls) else ls) := by
  refine ⟨?_, rfl, rfl⟩
  by_cases h : symbol = ESCAPE ∧ modifiers &&& MOD_SHIFT ≠ 0
  · simp [on_key_press, h, h.1, h.2]
  · rcases not_and_or.mp h with h1 | h1 <;> simp [on_key_press, h, h1]

/-- Folding key-value pairs into a dict gives, at each key, the last pair
for that key when there is one and the underlying dict entry otherwise:
the semantics of Python `dict(pairs)` and `d.update(pairs)`. -/
theorem dictOfPairs_apply (l : List (String × PyVal)) (d : Dict) (k : String) :
    dictOfPairs l d k = (lookupLast l k).or (d k) := by
  induction l generalizing d with
  | nil => simp [dictOfPairs, lookupLast, Option.none_or]
  | cons kv t ih =>
      rw [show dictOfPairs (kv :: t) d = dictOfPairs t (dictInsert d kv.1 kv.2) from rfl,
        ih]
      rw [show lookupLast (kv :: t) k =
        (lookupLast t k).or (if kv.1 = k then some kv.2 else none) from rfl]
      cases hx : lookupLast t k with
      | some v => simp [Option.or]
      | none =>
          by_cases hk : kv.1 = k
          · subst hk
            simp [Option.or, dictInsert]
          · simp [Option.or, dictInsert, hk, Ne.symm hk]

/-- Claim C8: a `Log` node is constructed with state logging disabled
(`save_log = False`), and its activation appends exactly one record whose
entry at each key is the eagerly resolved value of the last binding for
that key, taking `log_dict` over `log_items` when both bind the key. -/
theorem C8_log_record (resolve : PyVal → PyVal) (items dct : List (String × PyVal)) :
    (Log_init (some dct) none items).save_log = false ∧
      ∃ r, Log_callback resolve (Log_init (some dct) none items) = [r] ∧
        ∀ k, r k =
          (lookupLast (dct.map fun kv => (kv.1, resolve kv.2)) k).or
            (lookupLast (items.map fun kv => (kv.1, resolve kv.2)) k) := by
  refine ⟨rfl, _, rfl, ?_⟩
  intro k
  by_cases hd : dct.isEmpty
  · have hnil : dct = [] := by
      cases dct with
      | nil => rfl
      | cons a t => simp [List.isEmpty] at hd
    subst hnil
    simp [Log_callback, Log_init, dictOfPairs_apply, dictEmpty, lookupLast, Option.or_none,
      Option.none_or]
  · simp [Log_callback, Log_init, hd, dictOfPairs_apply, dictEmpty, Option.or_none]

end Smile
